import Mathlib

/-!
Verification development for the king-tiles program (programs/king_tiles/src).

The Rust sources are shallowly embedded: board cells (`u8` marks) become `Nat`,
signed `i16` positions become `Int` (Rust `rem_euclid` is Lean `%` on `Int`,
Rust truncating `/` is `Int.tdiv`), the flat `[u8; BOARD_SIZE]` array becomes a
`List Nat` indexed with `List.getD`/`List.set`, and Anchor's transactional
error handling (`require!`) becomes `Except`.  Rust panics
(`checked_sub(1).expect`) are modelled as `Option.none` at the instruction
boundary.  The unbounded recursion of the collision engine and the unbounded
probing loops are fuel-indexed; every theorem instantiates ample fuel.
Event emission and lamport transfers are external effects and are erased.
-/

/-! Constants (constants.rs) -/

def EMPTY : Nat := 0

def KING_MARK : Nat := 5

def POWERUP_MARK : Nat := 6

def BOMB_MARK : Nat := 7

def BOARD_SIZE : Nat := 144

def POWERUP_SCORE : Nat := 4

/-! State (state.rs) -/

/-- Per-player state (state.rs `Player`); the wallet `Pubkey` is modelled as a `Nat`. -/
structure Player where
  player : Nat
  score : Nat
  current_position : Int
  id : Nat
  powerup_score : Nat
deriving DecidableEq

/-- Orthogonal movement directions (state.rs `Direction`). -/
inductive Direction where
  | Up
  | Down
  | Left
  | Right
deriving DecidableEq

/-- Direction-to-delta map (state.rs `Direction::offset`). -/
def Direction.offset (d : Direction) (board_side_len : Nat) : Int :=
  match d with
  | .Right => 1
  | .Left => -1
  | .Down => (board_side_len : Int)
  | .Up => -(board_side_len : Int)

/-- Main game account state (state.rs `Board`). -/
structure Board where
  game_id : Nat
  players : List Player
  is_active : Bool
  board : List Nat
  board_side_len : Nat
  max_players : Nat
  registration_fee_lamports : Nat
  lamports_per_score : Nat
  players_count : Nat
  king_current_position : Nat
  last_move_timestamp : Int
  game_end_timestamp : Int
  powerup_current_position : Nat
  bomb_current_position : Nat
deriving DecidableEq

/-- Number of playable cells, `side * side` (state.rs `Board::active_board_cells`). -/
def Board.active_board_cells (b : Board) : Nat :=
  b.board_side_len * b.board_side_len

def defaultPlayer : Player :=
  { player := 0, score := 0, current_position := 0, id := 0, powerup_score := 0 }

/-- Read `board.players[i]` (indices used by the program are always in range). -/
def Board.getPlayer (b : Board) (i : Nat) : Player :=
  b.players.getD i defaultPlayer

/-- Read `board.board[i]`. -/
def Board.cell (b : Board) (i : Nat) : Nat :=
  b.board.getD i EMPTY

/-- Write `board.board[i] = v`. -/
def Board.setCell (b : Board) (i : Nat) (v : Nat) : Board :=
  { b with board := b.board.set i v }

/-- Write `board.players[i] = p`. -/
def Board.setPlayer (b : Board) (i : Nat) (p : Player) : Board :=
  { b with players := b.players.set i p }

/-! Movement helpers (movement.rs) -/

/-- Convert a 1-based player id into a 0-based index (movement.rs
`player_id_to_index`).  The source `checked_sub(1).expect(..)` panics when the
id is 0; the panic is modelled as `none`. -/
def player_id_to_index (player_id : Nat) : Option Nat :=
  if player_id = 0 then none else some (player_id - 1)

/-- Apply a move into an empty destination cell (movement.rs
`new_position_is_empty`). -/
def new_position_is_empty (b : Board) (player_index : Nat) (new_position : Nat) : Board :=
  let current_position := (b.getPlayer player_index).current_position
  let b1 := b.setCell new_position (b.getPlayer player_index).id
  let b2 := b1.setCell current_position.toNat EMPTY
  b2.setPlayer player_index
    { b2.getPlayer player_index with current_position := (new_position : Int) }

/-- Apply a move onto the king's tile (movement.rs `new_position_is_king`);
scoring is signalled by the emitted event, which is erased here. -/
def new_position_is_king (b : Board) (player_index : Nat) (new_position : Nat) : Board :=
  let b1 := b.setCell new_position (b.getPlayer player_index).id
  let current_position := (b1.getPlayer player_index).current_position
  let b2 := b1.setCell current_position.toNat EMPTY
  b2.setPlayer player_index
    { b2.getPlayer player_index with current_position := (new_position : Int) }

/-- Apply a move onto the powerup tile (movement.rs `new_position_is_powerup`). -/
def new_position_is_powerup (b : Board) (player_index : Nat) (new_position : Nat) : Board :=
  let current_position := (b.getPlayer player_index).current_position
  let b1 := b.setCell new_position (b.getPlayer player_index).id
  let b2 := b1.setCell current_position.toNat EMPTY
  b2.setPlayer player_index
    { b2.getPlayer player_index with
      current_position := (new_position : Int), powerup_score := POWERUP_SCORE }

/-- Fuel-indexed forward linear probe shared by the bomb warp (the bounded
`for _ in 0..board_cells` loop of movement.rs `new_position_is_bomb`, fuel =
`board_cells`) and the spawn callbacks' `while board[i] != EMPTY` loops in
lib.rs (fuel = `active_cells`; on a board with an empty reachable cell the
fuelled version agrees with the unbounded loop). -/
def probe_forward (cells : List Nat) (n : Nat) : Nat → Nat → Nat
  | 0, landing => landing
  | fuel + 1, landing =>
    if cells.getD landing EMPTY = EMPTY then landing
    else probe_forward cells n fuel ((landing + 1) % n)

/-- Cells after `new_position_is_bomb` clears the actor's old cell and the
stepped-on bomb cell (movement.rs lines 163-165). -/
def bomb_cleared_cells (b : Board) (player_index new_position : Nat) : List Nat :=
  (b.board.set (b.getPlayer player_index).current_position.toNat EMPTY).set new_position EMPTY

/-- Landing cell of the bomb warp: probe forward from the registration-order
home slot `player_index` (movement.rs lines 169-175). -/
def bomb_landing (b : Board) (player_index new_position : Nat) : Nat :=
  probe_forward (bomb_cleared_cells b player_index new_position)
    b.active_board_cells b.active_board_cells player_index

/-- Resolve a move onto the bomb tile (movement.rs `new_position_is_bomb`). -/
def new_position_is_bomb (b : Board) (player_index new_position : Nat) : Board :=
  let player_id := (b.getPlayer player_index).id
  let landing := bomb_landing b player_index new_position
  { b with
    board := (bomb_cleared_cells b player_index new_position).set landing player_id,
    players := b.players.set player_index
      { b.getPlayer player_index with current_position := (landing : Int) } }

/-- Single unit step with the sign and axis of the applied offset
(movement.rs lines 91-103). -/
def single_step_of (move_position : Int) (board_side_len : Int) : Int :=
  if (move_position.natAbs : Int) ≥ board_side_len then
    (if move_position > 0 then board_side_len else -board_side_len)
  else
    (if move_position > 0 then 1 else -1)

/-- Resolve a move into a cell occupied by another player (movement.rs
`new_position_is_occupied_by_player`).  The mutually recursive call back into
`check_board_for_new_position` is abstracted as `resolve`.  In this branch the
cell value is a nonzero player id, so the source's `player_id_to_index` cannot
panic and is plain subtraction. -/
def new_position_is_occupied_by_player
    (resolve : Board → Nat → Nat → Int → Board)
    (b : Board) (player_index : Nat) (move_position : Int) (new_position : Nat) : Board :=
  let board_cells := b.active_board_cells
  let board_side_len : Int := (b.board_side_len : Int)
  let collision_player_id := b.cell new_position
  let collision_player_index := collision_player_id - 1
  let collision_player_current_position :=
    (b.getPlayer collision_player_index).current_position
  if (move_position.natAbs : Int) = 1 ∨ (move_position.natAbs : Int) = board_side_len then
    let collision_player_new_position :=
      ((collision_player_current_position + move_position + move_position) %
          (board_cells : Int)).toNat
    let b1 := resolve b collision_player_index collision_player_new_position move_position
    new_position_is_empty b1 player_index new_position
  else
    let new_pos :=
      ((collision_player_current_position + single_step_of move_position board_side_len) %
          (board_cells : Int)).toNat
    if b.cell new_pos = EMPTY then
      new_position_is_empty (new_position_is_empty b collision_player_index new_pos)
        player_index new_position
    else
      b

/-- Dispatch on the destination-cell mark (movement.rs
`check_board_for_new_position`); the `payer_key` parameter only feeds event
emission and is erased.  The source recursion is unbounded; it is fuel-indexed
here and every use instantiates ample fuel. -/
def check_board_for_new_position : Nat → Board → Nat → Nat → Int → Board
  | 0, b, _, _, _ => b
  | fuel + 1, b, player_index, new_position, move_position =>
    let cell := b.cell new_position
    if cell = EMPTY then new_position_is_empty b player_index new_position
    else if cell = KING_MARK then new_position_is_king b player_index new_position
    else if cell = BOMB_MARK then new_position_is_bomb b player_index new_position
    else if cell = POWERUP_MARK then new_position_is_powerup b player_index new_position
    else
      new_position_is_occupied_by_player
        (fun b2 i n m => check_board_for_new_position fuel b2 i n m)
        b player_index move_position new_position

/-- Is the cell at `i` occupied by some player (movement.rs
`check_if_player_exists`)? -/
def check_if_player_exists (b : Board) (i : Int) : Bool :=
  b.board.getD i.toNat EMPTY != EMPTY && b.board.getD i.toNat EMPTY != KING_MARK &&
    b.board.getD i.toNat EMPTY != BOMB_MARK && b.board.getD i.toNat EMPTY != POWERUP_MARK

/-- Body executed once the scan of `use_power_with_direction` finds an occupied
cell at `i` (movement.rs lines 213-238): push the occupant `POWERUP_SCORE`
tiles in the scan direction through the resolution engine, then clear the
acting player's charge. -/
def power_hit (b : Board) (player_index : Nat) (power_use_direction : Int) (i : Int) : Board :=
  let attacked_player_id := b.board.getD i.toNat EMPTY
  let attacked_player_index := attacked_player_id - 1
  let attacked_player_current_position :=
    (b.getPlayer attacked_player_index).current_position
  let new_position_offset := (POWERUP_SCORE : Int) * power_use_direction
  let attacked_player_new_position :=
    ((attacked_player_current_position + new_position_offset) %
        (b.active_board_cells : Int)).toNat
  let b1 := check_board_for_new_position b.active_board_cells b attacked_player_index
    attacked_player_new_position new_position_offset
  b1.setPlayer player_index { b1.getPlayer player_index with powerup_score := 0 }

/-- The scan/act loop of movement.rs `use_power_with_direction` (lines
191-242), fuel-indexed.  `current_position` is the acting player's cell; `i`
is the scan cursor. -/
def use_power_loop (b : Board) (player_index : Nat) (power_use_direction : Int)
    (current_position : Int) : Nat → Int → Board
  | 0, _ => b
  | fuel + 1, i =>
    let board_cells := b.active_board_cells
    let board_side_len : Int := (b.board_side_len : Int)
    let step : Int := (power_use_direction.natAbs : Int)
    if i < 0 ∨ (board_cells : Int) ≤ i then b
    else if step = 1 ∧ current_position % board_side_len = 0 ∧ power_use_direction < 0 then b
    else if step = 1 ∧ current_position % board_side_len = board_side_len - 1 ∧
        0 < power_use_direction then b
    else if step = 1 ∧ (i < Int.tdiv current_position board_side_len * board_side_len ∨
        Int.tdiv current_position board_side_len * board_side_len + board_side_len ≤ i) then b
    else if check_if_player_exists b i then power_hit b player_index power_use_direction i
    else use_power_loop b player_index power_use_direction current_position fuel
      (i + power_use_direction)

/-- Pure mirror of the scan part of `use_power_loop`: `some i` when the loop's
found-branch fires at cursor `i`, `none` when the loop exits at an edge or by
leaving the board. -/
def power_scan (b : Board) (power_use_direction : Int)
    (current_position : Int) : Nat → Int → Option Int
  | 0, _ => none
  | fuel + 1, i =>
    let board_cells := b.active_board_cells
    let board_side_len : Int := (b.board_side_len : Int)
    let step : Int := (power_use_direction.natAbs : Int)
    if i < 0 ∨ (board_cells : Int) ≤ i then none
    else if step = 1 ∧ current_position % board_side_len = 0 ∧ power_use_direction < 0 then none
    else if step = 1 ∧ current_position % board_side_len = board_side_len - 1 ∧
        0 < power_use_direction then none
    else if step = 1 ∧ (i < Int.tdiv current_position board_side_len * board_side_len ∨
        Int.tdiv current_position board_side_len * board_side_len + board_side_len ≤ i) then none
    else if check_if_player_exists b i then some i
    else power_scan b power_use_direction current_position fuel (i + power_use_direction)

/-- Power push in a chosen direction (movement.rs `use_power_with_direction`).
The scan advances by `power_use_direction` each iteration and always leaves
`[0, board_cells)` within `board_cells` steps, so `board_cells + 1` fuel is
ample. -/
def use_power_with_direction (b : Board) (player_index : Nat)
    (power_use_direction : Int) : Board :=
  let current_position := (b.getPlayer player_index).current_position
  use_power_loop b player_index power_use_direction current_position
    (b.active_board_cells + 1) (current_position + power_use_direction)

/-! Instruction handlers (lib.rs) -/

/-- Error kinds (error.rs `KingTilesError`). -/
inductive KingTilesError where
  | MaxPlayersReached
  | GameAlreadyStarted
  | NotPlayer
  | GameNotActive
  | GameNotFull
  | GameNotStarted
  | GameEnded
  | GameNotOver
  | InvalidMove
  | NoPowerup
  | InvalidPowerupMove
  | InvalidGameConfig
deriving DecidableEq

/-- Allowed (side, max players) configurations (lib.rs `valid_mode`). -/
def valid_mode (board_side_len max_players : Nat) : Bool :=
  (board_side_len == 8 && max_players == 2) || (board_side_len == 10 && max_players == 4) ||
    (board_side_len == 12 && max_players == 6)

/-- Modelled from the spec: `king_starting_position`, called by
`start_game_session` in lib.rs, is not among the provided source files.  The
spec (section 6) fixes the deterministic king start cell at
`(side/2 - 1)*side + (side/2 - 1)`; for side 12 this agrees with the constant
`KING_STARTING_POSITION = 65` in constants.rs. -/
def king_starting_position (board_side_len : Nat) : Nat :=
  (board_side_len / 2 - 1) * board_side_len + (board_side_len / 2 - 1)

/-- Initialize a new game board (lib.rs `start_game_session`). -/
def start_game_session (game_id board_side_len max_players : Nat)
    (registration_fee_lamports lamports_per_score : Nat) : Except KingTilesError Board :=
  if !valid_mode board_side_len max_players then .error .InvalidGameConfig
  else if !(decide (0 < registration_fee_lamports) && decide (0 < lamports_per_score)) then
    .error .InvalidGameConfig
  else
    let base : Board :=
      { game_id := game_id, players := [], is_active := false,
        board := List.replicate BOARD_SIZE EMPTY,
        board_side_len := board_side_len, max_players := max_players,
        registration_fee_lamports := registration_fee_lamports,
        lamports_per_score := lamports_per_score, players_count := 0,
        king_current_position := 0, last_move_timestamp := 0, game_end_timestamp := 0,
        powerup_current_position := 0, bomb_current_position := 0 }
    let king_position := king_starting_position board_side_len
    .ok { base with
          king_current_position := king_position,
          board := base.board.set king_position KING_MARK }

/-- Register a player (lib.rs `register_player`).  `now` is the clock read at
activation; the lamport transfer to the treasury is an external ledger effect
and is erased.  An `.error` result models Anchor's transaction revert: no
state mutation is committed. -/
def register_player (b : Board) (now : Int) (payer : Nat) : Except KingTilesError Board :=
  if ¬b.players_count < b.max_players then .error .MaxPlayersReached
  else if b.is_active then .error .GameAlreadyStarted
  else
    let players_count := b.players_count
    let p : Player :=
      { player := payer, score := 0, current_position := (players_count : Int),
        id := players_count + 1, powerup_score := 0 }
    let b1 := { b with players := b.players ++ [p] }
    let b2 := b1.setCell p.current_position.toNat p.id
    let b3 := { b2 with players_count := players_count + 1 }
    if b3.players_count = b3.max_players then
      .ok { b3 with is_active := true, game_end_timestamp := now + 60 }
    else
      .ok b3

/-- Apply a player move (lib.rs `make_move`).  Result `none` models the panic
inside `player_id_to_index` for `player_id = 0`; `some (.error e)` models a
rejected (reverted) transaction. -/
def make_move (b : Board) (now : Int) (player_id payer : Nat) (direction : Direction) :
    Option (Except KingTilesError Board) :=
  if ¬now < b.game_end_timestamp then some (.error .GameEnded)
  else if ¬b.is_active then some (.error .GameNotStarted)
  else if ¬b.players_count = b.max_players then some (.error .GameNotFull)
  else
    match player_id_to_index player_id with
    | none => none
    | some player_index =>
      if ¬player_index < b.players_count then some (.error .NotPlayer)
      else if ¬(b.getPlayer player_index).id = player_id then some (.error .NotPlayer)
      else if ¬(b.getPlayer player_index).player = payer then some (.error .NotPlayer)
      else
        let move_position := direction.offset b.board_side_len
        let current_position := (b.getPlayer player_index).current_position
        let new_position :=
          ((current_position + move_position) % (b.active_board_cells : Int)).toNat
        some (.ok (check_board_for_new_position b.active_board_cells b player_index
          new_position move_position))

/-- Consume a powerup charge (lib.rs `use_power`).  As in `make_move`, `none`
models the `player_id_to_index` panic for id 0. -/
def use_power (b : Board) (player_id : Nat) (direction : Direction) :
    Option (Except KingTilesError Board) :=
  match player_id_to_index player_id with
  | none => none
  | some player_index =>
    if ¬player_index < b.players_count then some (.error .NotPlayer)
    else if ¬0 < (b.getPlayer player_index).powerup_score then some (.error .NoPowerup)
    else
      some (.ok (use_power_with_direction b player_index
        (direction.offset b.board_side_len)))

/-- VRF callback dropping the bomb tile (lib.rs `callback_bomb_drop`).
`candidate` is the value of `random_u8_with_range`, a uniformly sampled cell
index delivered by the external randomness collaborator. -/
def callback_bomb_drop (b : Board) (candidate : Nat) : Board :=
  let active_cells := b.active_board_cells
  let cleared :=
    if b.board.getD b.bomb_current_position EMPTY = BOMB_MARK then
      b.board.set b.bomb_current_position EMPTY
    else b.board
  let cell_index := probe_forward cleared active_cells active_cells candidate
  { b with board := cleared.set cell_index BOMB_MARK, bomb_current_position := cell_index }

/-- VRF callback moving the king tile (lib.rs `callback_king_move`). -/
def callback_king_move (b : Board) (candidate : Nat) : Board :=
  let active_cells := b.active_board_cells
  let cleared :=
    if b.board.getD b.king_current_position EMPTY = KING_MARK then
      b.board.set b.king_current_position EMPTY
    else b.board
  let cell_index := probe_forward cleared active_cells active_cells candidate
  { b with board := cleared.set cell_index KING_MARK, king_current_position := cell_index }

/-- VRF callback spawning the powerup tile (lib.rs `callback_spawn_powerup`). -/
def callback_spawn_powerup (b : Board) (candidate : Nat) : Board :=
  let active_cells := b.active_board_cells
  let cleared :=
    if b.board.getD b.powerup_current_position EMPTY = POWERUP_MARK then
      b.board.set b.powerup_current_position EMPTY
    else b.board
  let cell_index := probe_forward cleared active_cells active_cells candidate
  { b with board := cleared.set cell_index POWERUP_MARK, powerup_current_position := cell_index }

/-! Concrete sessions used by the scenario claims -/

/-- Successful boards out of the `Option (Except ..)` instruction results. -/
def okBoard (r : Option (Except KingTilesError Board)) : Option Board :=
  r.bind Except.toOption

/-- A freshly started, fully registered (8, 2) session: players 1 and 2 spawn
on cells 0 and 1, king starts on cell 27, session active with end timestamp
60. -/
def fresh2p : Option Board :=
  (start_game_session 1 8 2 1 1).toOption.bind fun b0 =>
  (register_player b0 0 101).toOption.bind fun b1 =>
  (register_player b1 0 102).toOption

/-- The C1 failing run: on the fresh (8, 2) session, spawn the bomb with
candidate cell 4, then play player 1 Right, player 2 Left, player 1 Right.
The final push sends player 2 onto the bomb; the warp probe lands player 2
back on the contested cell 2, which the mover then overwrites. -/
def c1_final : Option Board :=
  fresh2p.bind fun b2 =>
  (okBoard (make_move (callback_bomb_drop b2 4) 0 1 101 .Right)).bind fun b4 =>
  (okBoard (make_move b4 0 2 102 .Left)).bind fun b5 =>
  okBoard (make_move b5 0 1 101 .Right)

/-- Explicit value of the fresh (8, 2) session `fresh2p`, used to instantiate
witnesses. -/
def wBoard : Board :=
  { game_id := 1,
    players := [{ player := 101, score := 0, current_position := 0, id := 1, powerup_score := 0 },
                { player := 102, score := 0, current_position := 1, id := 2, powerup_score := 0 }],
    is_active := true,
    board := (((List.replicate 144 EMPTY).set 27 KING_MARK).set 0 1).set 1 2,
    board_side_len := 8, max_players := 2, registration_fee_lamports := 1,
    lamports_per_score := 1, players_count := 2, king_current_position := 27,
    last_move_timestamp := 0, game_end_timestamp := 60,
    powerup_current_position := 0, bomb_current_position := 0 }

/-- The fresh (8, 2) session with only the first player registered. -/
def wBoard1 : Board :=
  { wBoard with
    players := [{ player := 101, score := 0, current_position := 0, id := 1, powerup_score := 0 }],
    board := ((List.replicate 144 EMPTY).set 27 KING_MARK).set 0 1,
    is_active := false, players_count := 1, game_end_timestamp := 0 }

/-- Board state of the spec's simple-move scenario: player 1 (cell 0) moves
Right into player 2 (cell 1) on the fresh (8, 2) session. -/
def c2_after : Option Board :=
  fresh2p.bind fun b => okBoard (make_move b 0 1 101 .Right)

/-- Reachable state where player 2 stands on the right edge (cell 7) holding a
powerup charge: spawn the powerup at cell 2, then walk player 2 Right six
times, collecting the charge on the first step. -/
def c4_before : Option Board :=
  fresh2p.bind fun b2 =>
  (okBoard (make_move (callback_spawn_powerup b2 2) 0 2 102 .Right)).bind fun b3 =>
  (okBoard (make_move b3 0 2 102 .Right)).bind fun b4 =>
  (okBoard (make_move b4 0 2 102 .Right)).bind fun b5 =>
  (okBoard (make_move b5 0 2 102 .Right)).bind fun b6 =>
  (okBoard (make_move b6 0 2 102 .Right)).bind fun b7 =>
  okBoard (make_move b7 0 2 102 .Right)

/-- `c4_before` followed by player 2 using the power toward the right edge:
the scan hits the row boundary immediately and finds nobody. -/
def c4_after : Option Board :=
  c4_before.bind fun b => okBoard (use_power b 2 .Right)

/-- Explicit value of the `c4_before` state, for the amended-claim witness. -/
def wC4 : Board :=
  { wBoard with
    players := [{ player := 101, score := 0, current_position := 0, id := 1, powerup_score := 0 },
                { player := 102, score := 0, current_position := 7, id := 2, powerup_score := 4 }],
    board := (((List.replicate 144 EMPTY).set 27 KING_MARK).set 0 1).set 7 2,
    powerup_current_position := 2 }

/-- Blocked-power-push scenario board (side 8): player 1 at cell 0 holds a
charge, player 2 at cell 1 is the scan target, player 3 at cell 5 occupies the
push destination, and the king at cell 6 blocks player 3's step aside. -/
def wC5 : Board :=
  { wBoard with
    players := [{ player := 101, score := 0, current_position := 0, id := 1, powerup_score := 4 },
                { player := 102, score := 0, current_position := 1, id := 2, powerup_score := 0 },
                { player := 103, score := 0, current_position := 5, id := 3, powerup_score := 0 }],
    board := (((((List.replicate 144 EMPTY).set 27 KING_MARK).set 0 1).set 1 2).set 5 3).set 6 KING_MARK,
    players_count := 3, max_players := 4, board_side_len := 8 }

/-- Bomb-landing scenario board (spec section 8): player 2 (home slot 1)
stands at cell 39 and has just stepped onto the bomb at cell 40. -/
def wC6 : Board :=
  { wBoard with
    players := [{ player := 101, score := 0, current_position := 0, id := 1, powerup_score := 0 },
                { player := 102, score := 0, current_position := 39, id := 2, powerup_score := 0 }],
    board := ((((List.replicate 144 EMPTY).set 27 KING_MARK).set 0 1).set 39 2).set 40 BOMB_MARK,
    bomb_current_position := 40 }

/-- Side-8 board whose single empty active cell is cell 1, while the bomb's
previous cell 0 still carries the bomb mark; every other active cell holds
player mark 1. -/
def c7_board : Board :=
  { game_id := 0, players := [], is_active := true,
    board := ((List.replicate 144 1).set 0 BOMB_MARK).set 1 EMPTY,
    board_side_len := 8, max_players := 2, registration_fee_lamports := 1,
    lamports_per_score := 1, players_count := 2, king_current_position := 70,
    last_move_timestamp := 0, game_end_timestamp := 60,
    powerup_current_position := 70, bomb_current_position := 0 }

/-- Side-8 board whose single empty active cell is cell 3 and whose three
special-tile position fields all point at cells that no longer carry the
corresponding mark. -/
def wC7 : Board :=
  { game_id := 0, players := [], is_active := true,
    board := (List.replicate 144 1).set 3 EMPTY,
    board_side_len := 8, max_players := 2, registration_fee_lamports := 1,
    lamports_per_score := 1, players_count := 2, king_current_position := 5,
    last_move_timestamp := 0, game_end_timestamp := 60,
    powerup_current_position := 7, bomb_current_position := 6 }

/-! Probe lemmas -/

/-- The forward probe returns the first empty cell in cyclic order from its
start: if the cells at offsets `< k` from `s` are all occupied and the cell at
offset `k` is empty, the probe lands there (given enough fuel). -/
theorem probe_forward_reaches (cells : List Nat) (n : Nat) :
    ∀ (k fuel s : Nat), s < n → k < fuel →
      cells.getD ((s + k) % n) EMPTY = EMPTY →
      (∀ m, m < k → cells.getD ((s + m) % n) EMPTY ≠ EMPTY) →
      probe_forward cells n fuel s = (s + k) % n := by
  intro k
  induction k with
  | zero =>
    intro fuel s hs hfuel hempty _
    obtain ⟨f, rfl⟩ : ∃ f, fuel = f + 1 := ⟨fuel - 1, by omega⟩
    have hsn : (s + 0) % n = s := by rw [Nat.add_zero, Nat.mod_eq_of_lt hs]
    rw [hsn] at hempty ⊢
    rw [probe_forward, if_pos hempty]
  | succ k ih =>
    intro fuel s hs hfuel hempty hmin
    obtain ⟨f, rfl⟩ : ∃ f, fuel = f + 1 := ⟨fuel - 1, by omega⟩
    have hn : 0 < n := Nat.lt_of_le_of_lt (Nat.zero_le _) hs
    have hs0 : cells.getD s EMPTY ≠ EMPTY := by
      have := hmin 0 (Nat.succ_pos k)
      rwa [Nat.add_zero, Nat.mod_eq_of_lt hs] at this
    have hstep : probe_forward cells n (f + 1) s = probe_forward cells n f ((s + 1) % n) := by
      rw [probe_forward, if_neg hs0]
    rw [hstep]
    have harith : ∀ m : Nat, ((s + 1) % n + m) % n = (s + (m + 1)) % n := by
      intro m
      rw [Nat.mod_add_mod]
      ring_nf
    have := ih f ((s + 1) % n) (Nat.mod_lt _ hn) (Nat.lt_of_succ_lt_succ hfuel)
      (by rw [harith k]; exact hempty)
      (by
        intro m hm
        rw [harith m]
        exact hmin (m + 1) (Nat.succ_lt_succ hm))
    rw [this, harith k]

/-- On a cell list whose only empty entry among the first `n` cells is `e`,
the forward probe with fuel `n` lands on `e` from any start `c < n`. -/
theorem probe_forward_unique_empty (cells : List Nat) (n c e : Nat)
    (hc : c < n) (he : e < n) (hempty : cells.getD e EMPTY = EMPTY)
    (huniq : ∀ i, i < n → i ≠ e → cells.getD i EMPTY ≠ EMPTY) :
    probe_forward cells n n c = e := by
  have hn : 0 < n := Nat.lt_of_le_of_lt (Nat.zero_le _) hc
  by_cases hce : c ≤ e
  · have hk : (c + (e - c)) % n = e := by
      rw [Nat.add_sub_cancel' hce, Nat.mod_eq_of_lt he]
    have := probe_forward_reaches cells n (e - c) n c hc (by omega)
      (by rw [hk]; exact hempty)
      (by
        intro m hm
        have hlt : c + m < n := by omega
        rw [Nat.mod_eq_of_lt hlt]
        exact huniq (c + m) hlt (by omega))
    rw [this, hk]
  · have hce2 : e < c := Nat.lt_of_not_le hce
    have hk : (c + (e + n - c)) % n = e := by
      have : c + (e + n - c) = e + n := by omega
      rw [this, Nat.add_mod_right, Nat.mod_eq_of_lt he]
    have := probe_forward_reaches cells n (e + n - c) n c hc (by omega)
      (by rw [hk]; exact hempty)
      (by
        intro m hm
        by_cases hcm : c + m < n
        · rw [Nat.mod_eq_of_lt hcm]
          exact huniq (c + m) hcm (by omega)
        · have hge : n ≤ c + m := Nat.le_of_not_lt hcm
          have hsub : (c + m) % n = c + m - n := by
            rw [Nat.mod_eq_sub_mod hge, Nat.mod_eq_of_lt (by omega)]
          rw [hsub]
          exact huniq (c + m - n) (by omega) (by omega))
    rw [this, hk]

/-! Power-scan lemmas -/

/-- When the directional scan exits at an edge or leaves the board without
finding a player, the scan/act loop returns the board unchanged — in
particular the acting player's `powerup_score` is untouched. -/
theorem use_power_loop_of_scan_none (b : Board) (player_index : Nat)
    (power_use_direction current_position : Int) :
    ∀ (fuel : Nat) (i : Int),
      power_scan b power_use_direction current_position fuel i = none →
      use_power_loop b player_index power_use_direction current_position fuel i = b := by
  intro fuel
  induction fuel with
  | zero => intro i _; rfl
  | succ f ih =>
    intro i h
    rw [power_scan] at h
    rw [use_power_loop]
    split_ifs at h ⊢ with h1 h2 h3 h4 h5
    · rfl
    · rfl
    · rfl
    · rfl
    · exact ih _ h

/-- When the directional scan finds the first player-occupied cell at cursor
`j`, the scan/act loop performs exactly the `power_hit` action there. -/
theorem use_power_loop_of_scan_found (b : Board) (player_index : Nat)
    (power_use_direction current_position : Int) :
    ∀ (fuel : Nat) (i j : Int),
      power_scan b power_use_direction current_position fuel i = some j →
      use_power_loop b player_index power_use_direction current_position fuel i =
        power_hit b player_index power_use_direction j := by
  intro fuel
  induction fuel with
  | zero => intro i j h; exact absurd h (by simp [power_scan])
  | succ f ih =>
    intro i j h
    rw [power_scan] at h
    rw [use_power_loop]
    split_ifs at h ⊢ with h1 h2 h3 h4 h5
    · cases h; rfl
    · exact ih _ _ h

/-! Claim theorems -/

/-- C1: the claimed one-occupant invariant fails on a reachable run.  On the
fresh (8, 2) session, after spawning the bomb on cell 4 and playing player 1
Right, player 2 Left, player 1 Right (all operations succeed), the final push
sends player 2 onto the bomb, the warp probe from its occupied home slot lands
it back on the contested cell 2, and the mover then overwrites it: both
players end with current_position 2, cell 2 carries player 1's mark, and
player 2's mark is gone from the whole active board. -/
theorem c1_one_occupant_invariant_fails :
    (c1_final.map fun b =>
      decide ((b.getPlayer 0).current_position = (b.getPlayer 1).current_position) &&
        decide (b.cell 2 = 1) && ((List.range 64).all fun i => b.cell i != 2)) = some true := by
  decide

/-- C9: toroidal closure.  For any in-range position and any direction, the
destination computed the way `make_move` computes it — add the direction
offset and reduce with the always-nonnegative Euclidean modulo over `side²`
cells — is nonnegative, below `side²`, and its `toNat` image is a valid cell
index. -/
theorem c9_toroidal_closure (p : Int) (side : Nat) (d : Direction)
    (hside : 0 < side) (hp0 : 0 ≤ p) (hp : p < ((side * side : Nat) : Int)) :
    0 ≤ (p + Direction.offset d side) % ((side * side : Nat) : Int) ∧
      (p + Direction.offset d side) % ((side * side : Nat) : Int) <
        ((side * side : Nat) : Int) ∧
      ((p + Direction.offset d side) % ((side * side : Nat) : Int)).toNat < side * side := by
  have hpos : (0 : Int) < ((side * side : Nat) : Int) := by
    exact_mod_cast Nat.mul_pos hside hside
  have h1 := Int.emod_nonneg (p + Direction.offset d side) (ne_of_gt hpos)
  have h2 := Int.emod_lt_of_pos (p + Direction.offset d side) hpos
  refine ⟨h1, h2, ?_⟩
  omega

/-- Witness for C9 at position 5, side 8, direction Right. -/
theorem c9_toroidal_closure_witness :
    0 ≤ (5 + Direction.offset .Right 8) % ((8 * 8 : Nat) : Int) ∧
      (5 + Direction.offset .Right 8) % ((8 * 8 : Nat) : Int) < ((8 * 8 : Nat) : Int) ∧
      ((5 + Direction.offset .Right 8) % ((8 * 8 : Nat) : Int)).toNat < 8 * 8 :=
  c9_toroidal_closure 5 8 .Right (by decide) (by decide) (by decide)

/-- C10: calling `make_move` or `use_power` with player id 0 aborts by the
panic inside `player_id_to_index` (modelled as `none`) before the NotPlayer
identity checks run — `make_move` never returns the NotPlayer error for id 0,
and on an active, full, unexpired session it reaches the panic; `use_power`
panics for id 0 unconditionally; and for every id ≥ 1 the conversion
succeeds, returning index id - 1. -/
theorem c10_zero_player_id_panics :
    (∀ (b : Board) (now : Int) (payer : Nat) (d : Direction),
        now < b.game_end_timestamp → b.is_active = true →
        b.players_count = b.max_players → make_move b now 0 payer d = none)
    ∧ (∀ (b : Board) (now : Int) (payer : Nat) (d : Direction),
        make_move b now 0 payer d ≠ some (.error .NotPlayer))
    ∧ (∀ (b : Board) (d : Direction), use_power b 0 d = none)
    ∧ (∀ player_id : Nat, 1 ≤ player_id →
        player_id_to_index player_id = some (player_id - 1)) := by
  refine ⟨?_, ?_, ?_, ?_⟩
  · intro b now payer d h1 h2 h3
    simp [make_move, h1, h2, h3, player_id_to_index]
  · intro b now payer d
    unfold make_move
    split_ifs <;> simp [player_id_to_index]
  · intro b d
    rfl
  · intro player_id h
    unfold player_id_to_index
    rw [if_neg (by omega)]

/-- Witness for C10 on the fresh (8, 2) session. -/
theorem c10_zero_player_id_panics_witness :
    make_move wBoard 0 0 101 .Right = none ∧ use_power wBoard 0 .Right = none ∧
      player_id_to_index 3 = some 2 :=
  ⟨c10_zero_player_id_panics.1 wBoard 0 101 .Right (by decide) (by decide) (by decide),
   c10_zero_player_id_panics.2.2.1 wBoard .Right,
   c10_zero_player_id_panics.2.2.2 3 (by decide)⟩

/-- C8: registration gating.  A registration at capacity fails with
MaxPlayersReached before any mutation (the `Except.error` models Anchor's
transaction revert, so board, players, count and activation are untouched); a
registration that fills the last slot returns exactly the board extended with
the new player — next sequential 1-based id, spawn cell equal to its
registration-order slot — activated with end timestamp `now + 60`; and any
successful registration appends a player with id `players_count + 1` and spawn
position `players_count`. -/
theorem c8_registration_gating (b : Board) (now : Int) (payer : Nat) :
    (b.max_players ≤ b.players_count →
      register_player b now payer = .error .MaxPlayersReached)
    ∧ (b.players_count + 1 = b.max_players → b.is_active = false →
      register_player b now payer = .ok
        { b with
          players := b.players ++
            [(⟨payer, 0, (b.players_count : Int), b.players_count + 1, 0⟩ : Player)],
          board := b.board.set b.players_count (b.players_count + 1),
          players_count := b.players_count + 1,
          is_active := true, game_end_timestamp := now + 60 })
    ∧ (b.players_count < b.max_players → b.is_active = false →
      b.players.length = b.players_count →
      ∃ b2, register_player b now payer = .ok b2 ∧
        b2.getPlayer b.players_count =
          (⟨payer, 0, (b.players_count : Int), b.players_count + 1, 0⟩ : Player) ∧
        b2.players_count = b.players_count + 1) := by
  refine ⟨?_, ?_, ?_⟩
  · intro h
    unfold register_player
    rw [if_pos (by omega)]
  · intro hfill hact
    unfold register_player
    rw [if_neg (by omega), if_neg (by simp [hact])]
    simp only [Board.setCell, Int.toNat_natCast]
    rw [if_pos (by simpa using hfill)]
  · intro hlt hact hlen
    unfold register_player
    rw [if_neg (by omega), if_neg (by simp [hact])]
    simp only [Board.setCell, Int.toNat_natCast]
    split_ifs
    · refine ⟨_, rfl, ?_, rfl⟩
      simp [Board.getPlayer, List.getD, ← hlen]
    · refine ⟨_, rfl, ?_, rfl⟩
      simp [Board.getPlayer, List.getD, ← hlen]

/-- Witness for C8: a third registration on the full (8, 2) session fails
with the capacity error, and the second registration on the one-player
session activates it with end timestamp 60. -/
theorem c8_registration_gating_witness :
    register_player wBoard 0 103 = .error .MaxPlayersReached ∧
      register_player wBoard1 0 102 = .ok
        { wBoard1 with
          players := wBoard1.players ++
            [(⟨102, 0, (wBoard1.players_count : Int), wBoard1.players_count + 1, 0⟩ : Player)],
          board := wBoard1.board.set wBoard1.players_count (wBoard1.players_count + 1),
          players_count := wBoard1.players_count + 1,
          is_active := true, game_end_timestamp := 0 + 60 } :=
  ⟨(c8_registration_gating wBoard 0 103).1 (by decide),
   (c8_registration_gating wBoard1 0 102).2.1 (by decide) (by decide)⟩

/-- C4 counterexample: on the reachable state `c4_before` — player 2 on the
right-edge cell 7 holding a powerup charge — `usePower` toward the right edge
scans past the row boundary, finds nobody, and returns with the whole board
unchanged: the charge is still `POWERUP_SCORE`, not 0 as the claim states. -/
theorem c4_charge_not_consumed_counterexample :
    c4_after = c4_before ∧
      (c4_after.map fun b => (b.getPlayer 1).powerup_score) = some POWERUP_SCORE := by
  constructor
  · decide
  · decide

/-- C4 (amended): when the directional scan of `use_power_with_direction`
finds no player-occupied cell before hitting the board edge, the operation is
a complete no-op — board marks, every player's position, and the acting
player's `powerup_score` are all unchanged (the charge is preserved, not
consumed). -/
theorem c4_scan_miss_is_noop (b : Board) (player_index : Nat) (dir : Int)
    (h : power_scan b dir (b.getPlayer player_index).current_position
        (b.active_board_cells + 1)
        ((b.getPlayer player_index).current_position + dir) = none) :
    use_power_with_direction b player_index dir = b := by
  unfold use_power_with_direction
  exact use_power_loop_of_scan_none b player_index dir _ _ _ h

/-- Witness for the amended C4 on the explicit `c4_before` board. -/
theorem c4_scan_miss_is_noop_witness :
    use_power_with_direction wC4 1 1 = wC4 :=
  c4_scan_miss_is_noop wC4 1 1 (by decide)

/-- Dispatch lemma: when the destination cell carries none of the special
marks and is not empty, `check_board_for_new_position` enters the
occupied-by-player branch. -/
theorem check_board_occupied_eq (fuel : Nat) (b : Board) (player_index new_position : Nat)
    (move_position : Int)
    (h1 : b.cell new_position ≠ EMPTY) (h2 : b.cell new_position ≠ KING_MARK)
    (h3 : b.cell new_position ≠ BOMB_MARK) (h4 : b.cell new_position ≠ POWERUP_MARK) :
    check_board_for_new_position (fuel + 1) b player_index new_position move_position =
      new_position_is_occupied_by_player
        (fun b2 i n m => check_board_for_new_position fuel b2 i n m)
        b player_index move_position new_position := by
  simp only [check_board_for_new_position]
  rw [if_neg h1, if_neg h2, if_neg h3, if_neg h4]

/-- A power-magnitude resolution onto a player-occupied cell whose occupant
cannot step aside returns the board unchanged. -/
theorem check_board_power_blocked (fuel : Nat) (b : Board) (player_index new_position : Nat)
    (move_position : Int) (hfuel : 0 < fuel)
    (h1 : b.cell new_position ≠ EMPTY) (h2 : b.cell new_position ≠ KING_MARK)
    (h3 : b.cell new_position ≠ BOMB_MARK) (h4 : b.cell new_position ≠ POWERUP_MARK)
    (hmag : ¬((move_position.natAbs : Int) = 1 ∨
      (move_position.natAbs : Int) = (b.board_side_len : Int)))
    (hblocked : b.cell (((b.getPlayer (b.cell new_position - 1)).current_position +
        single_step_of move_position (b.board_side_len : Int)) %
        (b.active_board_cells : Int)).toNat ≠ EMPTY) :
    check_board_for_new_position fuel b player_index new_position move_position = b := by
  obtain ⟨f, rfl⟩ : ∃ f, fuel = f + 1 := ⟨fuel - 1, by omega⟩
  rw [check_board_occupied_eq f b player_index new_position move_position h1 h2 h3 h4]
  simp only [new_position_is_occupied_by_player]
  rw [if_neg hmag, if_neg hblocked]

/-- C2: a basic-magnitude step (offset ±1 or ±side) into a cell occupied by
another player first re-resolves the displaced occupant recursively at
destination `(other.current_position + 2*offset)` under Euclidean modulo over
`side²` cells, and only then moves the acting player into the vacated cell via
the empty-cell logic; concretely, on the fresh 8×8 two-player session the
player at cell 0 moving Right leaves cell 0 Empty, cell 1 with mark 1, and
cell 3 with mark 2. -/
theorem c2_basic_push (fuel : Nat) (b : Board) (player_index new_position : Nat)
    (move_position : Int)
    (h1 : b.cell new_position ≠ EMPTY) (h2 : b.cell new_position ≠ KING_MARK)
    (h3 : b.cell new_position ≠ BOMB_MARK) (h4 : b.cell new_position ≠ POWERUP_MARK)
    (hmag : (move_position.natAbs : Int) = 1 ∨
      (move_position.natAbs : Int) = (b.board_side_len : Int)) :
    check_board_for_new_position (fuel + 1) b player_index new_position move_position =
      new_position_is_empty
        (check_board_for_new_position fuel b (b.cell new_position - 1)
          (((b.getPlayer (b.cell new_position - 1)).current_position + 2 * move_position) %
              (b.active_board_cells : Int)).toNat
          move_position)
        player_index new_position
    ∧ (c2_after.map fun b2 =>
        decide (b2.cell 0 = EMPTY) && decide (b2.cell 1 = 1) && decide (b2.cell 3 = 2)) =
      some true := by
  constructor
  · rw [check_board_occupied_eq fuel b player_index new_position move_position h1 h2 h3 h4]
    simp only [new_position_is_occupied_by_player]
    rw [if_pos hmag]
    have harith :
        (b.getPlayer (b.cell new_position - 1)).current_position + move_position +
            move_position =
          (b.getPlayer (b.cell new_position - 1)).current_position + 2 * move_position := by
      ring
    rw [harith]
  · decide

/-- Witness for C2 on the fresh (8, 2) session: player 1 at cell 0 pushing
into cell 1 with offset +1. -/
theorem c2_basic_push_witness :
    check_board_for_new_position 1 wBoard 0 1 1 =
      new_position_is_empty
        (check_board_for_new_position 0 wBoard (wBoard.cell 1 - 1)
          (((wBoard.getPlayer (wBoard.cell 1 - 1)).current_position + 2 * 1) %
              (wBoard.active_board_cells : Int)).toNat 1) 0 1
    ∧ (c2_after.map fun b2 =>
        decide (b2.cell 0 = EMPTY) && decide (b2.cell 1 = 1) && decide (b2.cell 3 = 2)) =
      some true :=
  c2_basic_push 0 wBoard 0 1 1 (by decide) (by decide) (by decide) (by decide)
    (Or.inl (by decide))

/-- C3: a power-magnitude resolution (offset magnitude neither 1 nor side)
landing on a player-occupied cell computes a single unit step with the same
sign and axis from the occupant's position; if that cell is Empty the occupant
steps aside and the acting player then takes the destination, both via the
empty-cell logic, and otherwise nothing moves and there are no side effects. -/
theorem c3_power_push (fuel : Nat) (b : Board) (player_index new_position : Nat)
    (move_position : Int)
    (h1 : b.cell new_position ≠ EMPTY) (h2 : b.cell new_position ≠ KING_MARK)
    (h3 : b.cell new_position ≠ BOMB_MARK) (h4 : b.cell new_position ≠ POWERUP_MARK)
    (hmag1 : (move_position.natAbs : Int) ≠ 1)
    (hmag2 : (move_position.natAbs : Int) ≠ (b.board_side_len : Int)) :
    (b.cell (((b.getPlayer (b.cell new_position - 1)).current_position +
          single_step_of move_position (b.board_side_len : Int)) %
          (b.active_board_cells : Int)).toNat = EMPTY →
      check_board_for_new_position (fuel + 1) b player_index new_position move_position =
        new_position_is_empty
          (new_position_is_empty b (b.cell new_position - 1)
            (((b.getPlayer (b.cell new_position - 1)).current_position +
                single_step_of move_position (b.board_side_len : Int)) %
                (b.active_board_cells : Int)).toNat)
          player_index new_position)
    ∧ (b.cell (((b.getPlayer (b.cell new_position - 1)).current_position +
          single_step_of move_position (b.board_side_len : Int)) %
          (b.active_board_cells : Int)).toNat ≠ EMPTY →
      check_board_for_new_position (fuel + 1) b player_index new_position move_position = b) := by
  have hmag : ¬((move_position.natAbs : Int) = 1 ∨
      (move_position.natAbs : Int) = (b.board_side_len : Int)) := by
    push_neg
    exact ⟨hmag1, hmag2⟩
  constructor
  · intro hE
    rw [check_board_occupied_eq fuel b player_index new_position move_position h1 h2 h3 h4]
    simp only [new_position_is_occupied_by_player]
    rw [if_neg hmag, if_pos hE]
  · intro hNE
    exact check_board_power_blocked (fuel + 1) b player_index new_position move_position
      (by omega) h1 h2 h3 h4 hmag hNE

/-- Witness for C3 on the blocked scenario board `wC5`: player 2 pushed with
offset +4 onto cell 5 (player 3), whose step-aside cell 6 holds the king. -/
theorem c3_power_push_witness :
    check_board_for_new_position 1 wC5 1 5 4 = wC5 :=
  (c3_power_push 0 wC5 1 5 4 (by decide) (by decide) (by decide) (by decide)
    (by decide) (by decide)).2 (by decide)

/-- C5: when the power scan finds a target at cursor `j`, the push destination
is occupied by another player, and that player's step-aside cell is not Empty,
`use_power_with_direction` leaves every board mark and every player position
unchanged and only clears the acting player's `powerup_score` to zero. -/
theorem c5_blocked_push_consumes_charge (b : Board) (player_index : Nat) (dir j : Int)
    (hcells : 0 < b.active_board_cells)
    (hscan : power_scan b dir (b.getPlayer player_index).current_position
        (b.active_board_cells + 1)
        ((b.getPlayer player_index).current_position + dir) = some j)
    (h1 : b.cell (((b.getPlayer (b.board.getD j.toNat EMPTY - 1)).current_position +
        (POWERUP_SCORE : Int) * dir) % (b.active_board_cells : Int)).toNat ≠ EMPTY)
    (h2 : b.cell (((b.getPlayer (b.board.getD j.toNat EMPTY - 1)).current_position +
        (POWERUP_SCORE : Int) * dir) % (b.active_board_cells : Int)).toNat ≠ KING_MARK)
    (h3 : b.cell (((b.getPlayer (b.board.getD j.toNat EMPTY - 1)).current_position +
        (POWERUP_SCORE : Int) * dir) % (b.active_board_cells : Int)).toNat ≠ BOMB_MARK)
    (h4 : b.cell (((b.getPlayer (b.board.getD j.toNat EMPTY - 1)).current_position +
        (POWERUP_SCORE : Int) * dir) % (b.active_board_cells : Int)).toNat ≠ POWERUP_MARK)
    (hmag : ¬(((((POWERUP_SCORE : Int) * dir).natAbs : Nat) : Int) = 1 ∨
      ((((POWERUP_SCORE : Int) * dir).natAbs : Nat) : Int) = (b.board_side_len : Int)))
    (hblocked : b.cell (((b.getPlayer
        (b.cell (((b.getPlayer (b.board.getD j.toNat EMPTY - 1)).current_position +
          (POWERUP_SCORE : Int) * dir) % (b.active_board_cells : Int)).toNat - 1)).current_position +
        single_step_of ((POWERUP_SCORE : Int) * dir) (b.board_side_len : Int)) %
        (b.active_board_cells : Int)).toNat ≠ EMPTY) :
    use_power_with_direction b player_index dir =
      b.setPlayer player_index { b.getPlayer player_index with powerup_score := 0 } := by
  simp only [use_power_with_direction]
  rw [use_power_loop_of_scan_found b player_index dir
    (b.getPlayer player_index).current_position (b.active_board_cells + 1)
    ((b.getPlayer player_index).current_position + dir) j hscan]
  simp only [power_hit]
  rw [check_board_power_blocked b.active_board_cells b (b.board.getD j.toNat EMPTY - 1)
    (((b.getPlayer (b.board.getD j.toNat EMPTY - 1)).current_position +
        (POWERUP_SCORE : Int) * dir) % (b.active_board_cells : Int)).toNat
    ((POWERUP_SCORE : Int) * dir) hcells h1 h2 h3 h4 hmag hblocked]

/-- Witness for C5 on `wC5`: player 1 (charge 4) fires Right; the scan finds
player 2 at cell 1, the push destination cell 5 holds player 3, and player 3's
step-aside cell 6 holds the king, so only the charge changes. -/
theorem c5_blocked_push_consumes_charge_witness :
    use_power_with_direction wC5 0 1 =
      wC5.setPlayer 0 { wC5.getPlayer 0 with powerup_score := 0 } :=
  c5_blocked_push_consumes_charge wC5 0 1 1 (by decide) (by decide) (by decide) (by decide)
    (by decide) (by decide) (by decide) (by decide)

/-- C6: resolving a move onto the bomb cell clears the actor's old cell and
the bomb cell to Empty, relocates the actor to the landing of the forward
linear probe (wrapping modulo the active cells) started at the
registration-order home slot `id - 1`, leaves `bomb_current_position`
untouched (the bomb is consumed, not respawned here), lands on the home slot
itself whenever it is Empty after the clearing, and in general lands on the
first Empty cell in forward cyclic order from the home slot. -/
theorem c6_bomb_landing_semantics (b : Board) (player_index new_position : Nat)
    (hcells : 0 < b.active_board_cells)
    (hpi : player_index < b.active_board_cells)
    (hid : (b.getPlayer player_index).id = player_index + 1) :
    new_position_is_bomb b player_index new_position =
      { b with
        board := (bomb_cleared_cells b player_index new_position).set
          (bomb_landing b player_index new_position) (b.getPlayer player_index).id,
        players := b.players.set player_index
          { b.getPlayer player_index with
            current_position := (bomb_landing b player_index new_position : Int) } }
    ∧ (new_position_is_bomb b player_index new_position).bomb_current_position =
        b.bomb_current_position
    ∧ ((bomb_cleared_cells b player_index new_position).getD
          ((b.getPlayer player_index).id - 1) EMPTY = EMPTY →
        bomb_landing b player_index new_position = (b.getPlayer player_index).id - 1)
    ∧ (∀ k, k < b.active_board_cells →
        (bomb_cleared_cells b player_index new_position).getD
          ((player_index + k) % b.active_board_cells) EMPTY = EMPTY →
        (∀ m, m < k → (bomb_cleared_cells b player_index new_position).getD
          ((player_index + m) % b.active_board_cells) EMPTY ≠ EMPTY) →
        bomb_landing b player_index new_position =
          (player_index + k) % b.active_board_cells) := by
  refine ⟨rfl, rfl, ?_, ?_⟩
  · intro hE
    rw [hid, Nat.add_sub_cancel] at hE
    rw [hid, Nat.add_sub_cancel]
    have hpi0 : (player_index + 0) % b.active_board_cells = player_index := by
      rw [Nat.add_zero, Nat.mod_eq_of_lt hpi]
    have := probe_forward_reaches (bomb_cleared_cells b player_index new_position)
      b.active_board_cells 0 b.active_board_cells player_index hpi hcells
      (by rw [hpi0]; exact hE) (by intro m hm; omega)
    rw [bomb_landing, this, hpi0]
  · intro k hk hE hmin
    rw [bomb_landing]
    exact probe_forward_reaches (bomb_cleared_cells b player_index new_position)
      b.active_board_cells k b.active_board_cells player_index hpi hk hE hmin

/-- Witness for C6 on the spec's bomb scenario board `wC6`: player 2 (home
slot 1) stepping onto the bomb at cell 40 lands on its empty home slot 1. -/
theorem c6_bomb_landing_semantics_witness :
    bomb_landing wC6 1 40 = (wC6.getPlayer 1).id - 1 ∧
      (new_position_is_bomb wC6 1 40).bomb_current_position = wC6.bomb_current_position :=
  ⟨(c6_bomb_landing_semantics wC6 1 40 (by decide) (by decide) (by decide)).2.2.1 (by decide),
   (c6_bomb_landing_semantics wC6 1 40 (by decide) (by decide) (by decide)).2.1⟩

/-- C7 counterexample: `c7_board` has exactly one Empty active cell (cell 1),
but its bomb cell 0 still carries the bomb mark; with sampled candidate 0 the
callback clears cell 0 and immediately re-places the bomb there, not on the
unique pre-existing Empty cell 1. -/
theorem c7_spawn_counterexample :
    ((List.range 64).all fun i => decide (c7_board.cell i = EMPTY ↔ i = 1)) = true ∧
      (callback_bomb_drop c7_board 0).cell 0 = BOMB_MARK ∧
      (callback_bomb_drop c7_board 0).bomb_current_position = 0 ∧
      (callback_bomb_drop c7_board 0).cell 1 = EMPTY := by
  exact ⟨by decide, by decide, by decide, by decide⟩

/-- C7 (amended): on a board with exactly one Empty active cell, each spawn
callback — conditioned only on its own tile's recorded previous cell no longer
carrying that tile's mark — places its tile on exactly that Empty cell
regardless of the sampled candidate index. -/
theorem c7_spawn_unique_empty (b : Board) (candidate e : Nat)
    (hc : candidate < b.active_board_cells) (he : e < b.active_board_cells)
    (hempty : b.cell e = EMPTY)
    (huniq : ∀ i, i < b.active_board_cells → i ≠ e → b.cell i ≠ EMPTY) :
    (b.cell b.king_current_position ≠ KING_MARK →
      callback_king_move b candidate =
        { b with board := b.board.set e KING_MARK, king_current_position := e }) ∧
    (b.cell b.bomb_current_position ≠ BOMB_MARK →
      callback_bomb_drop b candidate =
        { b with board := b.board.set e BOMB_MARK, bomb_current_position := e }) ∧
    (b.cell b.powerup_current_position ≠ POWERUP_MARK →
      callback_spawn_powerup b candidate =
        { b with board := b.board.set e POWERUP_MARK, powerup_current_position := e }) := by
  have hprobe : probe_forward b.board b.active_board_cells b.active_board_cells candidate = e :=
    probe_forward_unique_empty b.board b.active_board_cells candidate e hc he hempty huniq
  refine ⟨?_, ?_, ?_⟩
  · intro hking
    have hking2 : ¬b.board.getD b.king_current_position EMPTY = KING_MARK := hking
    simp only [callback_king_move]
    rw [if_neg hking2, hprobe]
  · intro hbomb
    have hbomb2 : ¬b.board.getD b.bomb_current_position EMPTY = BOMB_MARK := hbomb
    simp only [callback_bomb_drop]
    rw [if_neg hbomb2, hprobe]
  · intro hpow
    have hpow2 : ¬b.board.getD b.powerup_current_position EMPTY = POWERUP_MARK := hpow
    simp only [callback_spawn_powerup]
    rw [if_neg hpow2, hprobe]

/-- Witness for the amended C7 on `wC7`: unique Empty active cell 3,
candidate 60, each tile's own previous cell overwritten. -/
theorem c7_spawn_unique_empty_witness :
    callback_king_move wC7 60 =
      { wC7 with board := wC7.board.set 3 KING_MARK, king_current_position := 3 } ∧
    callback_bomb_drop wC7 60 =
      { wC7 with board := wC7.board.set 3 BOMB_MARK, bomb_current_position := 3 } ∧
    callback_spawn_powerup wC7 60 =
      { wC7 with board := wC7.board.set 3 POWERUP_MARK, powerup_current_position := 3 } :=
  ⟨(c7_spawn_unique_empty wC7 60 3 (by decide) (by decide) (by decide) (by decide)).1
      (by decide),
   (c7_spawn_unique_empty wC7 60 3 (by decide) (by decide) (by decide) (by decide)).2.1
      (by decide),
   (c7_spawn_unique_empty wC7 60 3 (by decide) (by decide) (by decide) (by decide)).2.2
      (by decide)⟩
